import Mathlib

/-
Shallow embedding of the CS2 trade-up calculator core
(src/calculator/probability_calc.py and src/calculator/tradeup_engine.py).
Python floats are modelled as rationals; where the source takes a real
square root (statistics.stdev, math.sqrt) the embedding uses Real.sqrt.
Python dicts keyed by skin name are modelled as association lists whose
keys appear in first-insertion order, and dict.get(k, default) is dictGet.
-/

namespace CS2

/-- the SkinData record of tradeup_engine.py (also stands for the skin
data dicts consumed by probability_calc.py, whose fields have the same
names). -/
structure SkinData where
  market_hash_name : String
  collection : String
  rarity : String
  float_value : ℚ
  price_cents : ℤ
  wear_name : String
  is_stattrak : Bool := false
  is_souvenir : Bool := false
deriving Repr, DecidableEq

/-- the five wear tiers of the WearTier enum, in declaration order. -/
inductive WearTier where
  | FACTORY_NEW
  | MINIMAL_WEAR
  | FIELD_TESTED
  | WELL_WORN
  | BATTLE_SCARRED
deriving Repr, DecidableEq

/-- lower float bound of each wear tier (second component of each enum
member of WearTier in probability_calc.py). -/
def WearTier.min_float : WearTier → ℚ
  | .FACTORY_NEW => 0
  | .MINIMAL_WEAR => 7/100
  | .FIELD_TESTED => 15/100
  | .WELL_WORN => 38/100
  | .BATTLE_SCARRED => 45/100

/-- upper float bound of each wear tier (third component of each enum
member of WearTier in probability_calc.py). -/
def WearTier.max_float : WearTier → ℚ
  | .FACTORY_NEW => 7/100
  | .MINIMAL_WEAR => 15/100
  | .FIELD_TESTED => 38/100
  | .WELL_WORN => 45/100
  | .BATTLE_SCARRED => 1

/-- iteration order of the WearTier enum (the order of its members). -/
def WearTier.all : List WearTier :=
  [.FACTORY_NEW, .MINIMAL_WEAR, .FIELD_TESTED, .WELL_WORN, .BATTLE_SCARRED]

/-- WearTier.from_float: the for-loop over the enum members in
declaration order, returning the first tier whose half-open interval
contains the value, with the BATTLE_SCARRED fallback for edge cases
(probability_calc.py lines 21-27).  Generic over the ordered field used
to model Python floats. -/
def WearTier.from_float {K : Type} [LinearOrderedField K] (float_value : K) : WearTier :=
  if (FACTORY_NEW.min_float : K) ≤ float_value ∧ float_value < (FACTORY_NEW.max_float : K) then
    .FACTORY_NEW
  else if (MINIMAL_WEAR.min_float : K) ≤ float_value ∧ float_value < (MINIMAL_WEAR.max_float : K) then
    .MINIMAL_WEAR
  else if (FIELD_TESTED.min_float : K) ≤ float_value ∧ float_value < (FIELD_TESTED.max_float : K) then
    .FIELD_TESTED
  else if (WELL_WORN.min_float : K) ≤ float_value ∧ float_value < (WELL_WORN.max_float : K) then
    .WELL_WORN
  else if (BATTLE_SCARRED.min_float : K) ≤ float_value ∧ float_value < (BATTLE_SCARRED.max_float : K) then
    .BATTLE_SCARRED
  else
    .BATTLE_SCARRED

/-- python dict.get(key, default) over an association list. -/
def dictGet {α : Type} (d : List (String × α)) (key : String) (default : α) : α :=
  match d.find? (fun p => p.1 == key) with
  | some p => p.2
  | none => default

/-- keys of a python dict, in insertion order. -/
def dictKeys {α : Type} (d : List (String × α)) : List String := d.map (fun p => p.1)

/-- first-occurrence deduplication: the key order a python dict
comprehension (or set built by insertion) produces when the same key is
seen several times. -/
def pyDedup {α : Type} [DecidableEq α] (l : List α) : List α :=
  l.foldl (fun acc k => if k ∈ acc then acc else acc ++ [k]) []

/-- python min(list) with a default for the empty list, as in the
expression min(prices) if prices else 0. -/
def pyMin (l : List ℤ) (default : ℤ) : ℤ :=
  match l with
  | [] => default
  | x :: xs => xs.foldl min x

/-- python max(list) with a default for the empty list. -/
def pyMax (l : List ℤ) (default : ℤ) : ℤ :=
  match l with
  | [] => default
  | x :: xs => xs.foldl max x

/-- statistics.mean over rationals (raises on an empty list in python;
the embeddings below only apply it after the nonempty check the source
performs, or surface an explicit error). -/
def statMean (xs : List ℚ) : ℚ := xs.sum / (xs.length : ℚ)

/-- statistics.variance: sample variance with denominator n-1 (only used
by the source when the list has at least two elements). -/
def statVariance (xs : List ℚ) : ℚ :=
  (xs.map (fun x => (x - statMean xs) ^ 2)).sum / ((xs.length : ℚ) - 1)

/-- statistics.stdev: square root of the sample variance. -/
noncomputable def float_stdev (xs : List ℚ) : ℝ := Real.sqrt (statVariance xs)

/-- the fixed six-tier rarity hierarchy of
calculate_rarity_upgrade_probability. -/
def rarity_hierarchy : List String :=
  ["Consumer Grade", "Industrial Grade", "Mil-Spec Grade", "Restricted", "Classified", "Covert"]

/-- ProbabilityCalculator.calculate_rarity_upgrade_probability
(probability_calc.py lines 137-159).  The list.index call raises
ValueError for an unknown rarity; the explicit
ValueError("Cannot upgrade beyond ...") raised for the top tier on line
157 is itself caught by the except ValueError handler on line 158, so
every failure path actually surfaces as the "Unknown rarity" ValueError. -/
def calculate_rarity_upgrade_probability (input_rarity : String) : Except String String :=
  match rarity_hierarchy.findIdx? (fun r => r == input_rarity) with
  | some current_index =>
      if current_index < rarity_hierarchy.length - 1 then
        .ok (rarity_hierarchy.getD (current_index + 1) "")
      else
        .error ("Unknown rarity: " ++ input_rarity)
  | none => .error ("Unknown rarity: " ++ input_rarity)

/-- the TradeupInput dataclass: a list of input skins whose length is
checked in post-init. -/
structure TradeupInput where
  input_skins : List SkinData
deriving Repr, DecidableEq

/-- construction of a TradeupInput: the dataclass runs post-init, which
raises ValueError unless exactly 10 skins are supplied
(tradeup_engine.py lines 24-26). -/
def TradeupInput.make (input_skins : List SkinData) : Except String TradeupInput :=
  if input_skins.length ≠ 10 then
    .error "Tradeup contract requires exactly 10 input skins"
  else
    .ok ⟨input_skins⟩

/-- the TradeupOutcome dataclass. -/
structure TradeupOutcome where
  skin_data : SkinData
  probability : ℚ
  expected_float_range : ℚ × ℚ
deriving Repr, DecidableEq

/-- TradeupCalculator._calculate_break_even_probability
(tradeup_engine.py lines 160-177): 0.0 for an empty outcome list, 1.0
when no outcome reaches the input cost, otherwise the probability mass
of the outcomes whose price is at least the input cost (non-strict). -/
def calculate_break_even_probability (input_cost : ℤ) (outcomes : List TradeupOutcome) : ℚ :=
  if outcomes.isEmpty then 0
  else
    let profitable_outcomes := outcomes.filter (fun o => input_cost ≤ o.skin_data.price_cents)
    if profitable_outcomes.isEmpty then 1
    else (profitable_outcomes.map (fun o => o.probability)).sum

/-- the violation messages built by
TradeupCalculator.validate_tradeup_inputs, one constructor per append
site, carrying the data interpolated into the message string. -/
inductive Violation where
  | count (n : ℕ)
  | mixedRarities (rarities : List String)
  | inconsistentStattrak
  | inconsistentSouvenir
  | mixedStattrakSouvenir
deriving Repr, DecidableEq

/-- TradeupCalculator.validate_tradeup_inputs (tradeup_engine.py lines
179-212).  Note the early return on line 189: when the count is wrong
the remaining checks never run.  The set of rarities is modelled as the
list of distinct rarities in first-occurrence order. -/
def validate_tradeup_inputs (input_skins : List SkinData) : List Violation :=
  if input_skins.length ≠ 10 then
    [.count input_skins.length]
  else
    let rarities := pyDedup (input_skins.map (fun s => s.rarity))
    let stattrak_count := (input_skins.filter (fun s => s.is_stattrak)).length
    let souvenir_count := (input_skins.filter (fun s => s.is_souvenir)).length
    (if 1 < rarities.length then [Violation.mixedRarities rarities] else [])
    ++ (if 0 < stattrak_count ∧ stattrak_count ≠ 10 then [Violation.inconsistentStattrak] else [])
    ++ (if 0 < souvenir_count ∧ souvenir_count ≠ 10 then [Violation.inconsistentSouvenir] else [])
    ++ (if 0 < stattrak_count ∧ 0 < souvenir_count then [Violation.mixedStattrakSouvenir] else [])

/-- core of ProbabilityCalculator._calculate_float_distribution
(probability_calc.py lines 88-123), as a function of the average and
standard deviation of the input floats computed on lines 84-86: the
statistical output range is clamped into [0,1], each tier gets the
proportion of that range overlapping its interval (with a fallback
branch when the range has zero width), and the weights are renormalized
unless they total zero.  Generic over the ordered field modelling
Python floats, so it can be instantiated at ℝ (where the standard
deviation lives) and evaluated at ℚ. -/
def floatDistFrom {K : Type} [LinearOrderedField K] (avg_float float_std : K) :
    List (WearTier × K) :=
  let output_float_min := max 0 (avg_float - float_std)
  let output_float_max := min 1 (avg_float + float_std)
  let wear_probabilities := WearTier.all.map (fun tier =>
    let overlap_min := max output_float_min (tier.min_float : K)
    let overlap_max := min output_float_max (tier.max_float : K)
    let probability :=
      if overlap_min < overlap_max then
        let _tier_range := (tier.max_float : K) - (tier.min_float : K)
        let overlap_range := overlap_max - overlap_min
        let output_range := output_float_max - output_float_min
        if 0 < output_range then overlap_range / output_range
        else if tier = WearTier.from_float avg_float then 1 else 0
      else 0
    (tier, probability))
  let total_prob := (wear_probabilities.map (fun p => p.2)).sum
  if 0 < total_prob then
    wear_probabilities.map (fun p => (p.1, p.2 / total_prob))
  else
    wear_probabilities

/-- ProbabilityCalculator._calculate_float_distribution
(probability_calc.py lines 78-123): the average of the input floats,
their sample standard deviation when there are at least two (else 0.0),
fed into the range-overlap computation above.  Only defined for a
nonempty input list, on which statistics.mean does not raise. -/
noncomputable def calculate_float_distribution (input_skins : List SkinData) :
    List (WearTier × ℝ) :=
  let input_floats := input_skins.map (fun s => s.float_value)
  floatDistFrom ((statMean input_floats : ℚ) : ℝ)
    (if 1 < input_floats.length then float_stdev input_floats else 0)

/-- ProbabilityCalculator._calculate_float_statistics
(probability_calc.py lines 125-135): mean and sample variance of the
input floats, both 0.0 for an empty list, variance 0.0 for a singleton. -/
def calculate_float_statistics (input_skins : List SkinData) : ℚ × ℚ :=
  let input_floats := input_skins.map (fun s => s.float_value)
  if input_floats.isEmpty then (0, 0)
  else
    (statMean input_floats,
     if 1 < input_floats.length then statVariance input_floats else 0)

/-- the ProbabilityDistribution dataclass of probability_calc.py. -/
structure ProbabilityDistribution where
  outcome_probabilities : List (String × ℚ)
  float_distribution : List (WearTier × ℝ)
  expected_float : ℚ
  float_variance : ℚ

/-- ProbabilityCalculator.calculate_outcome_probabilities
(probability_calc.py lines 42-76): empty outcome pool short-circuits to
an all-empty distribution; otherwise each distinct outcome name is
mapped to 1/num_outcomes by the dict comprehension (duplicate names
collapse onto one entry), and the float distribution and statistics of
the input skins are attached.  With a nonempty pool and an empty input
list, statistics.mean on line 85 raises, surfaced here as an error. -/
noncomputable def calculate_outcome_probabilities
    (input_skins outcome_collection : List SkinData) :
    Except String ProbabilityDistribution :=
  let num_outcomes := outcome_collection.length
  if num_outcomes = 0 then .ok ⟨[], [], 0, 0⟩
  else if input_skins.isEmpty then
    .error "statistics.mean requires at least one data point"
  else
    let base_probability : ℚ := 1 / (num_outcomes : ℚ)
    let outcome_probabilities :=
      (pyDedup (outcome_collection.map (fun s => s.market_hash_name))).map
        (fun n => (n, base_probability))
    .ok ⟨outcome_probabilities, calculate_float_distribution input_skins,
      (calculate_float_statistics input_skins).1,
      (calculate_float_statistics input_skins).2⟩

/-- the expected output value Σ prob · price of
calculate_expected_value_with_uncertainty (probability_calc.py lines
178-181), with the missing-price default outcome_prices.get(skin, 0). -/
def expected_output_value (outcome_probabilities : List (String × ℚ))
    (outcome_prices : List (String × ℤ)) : ℚ :=
  (outcome_probabilities.map (fun p => p.2 * ((dictGet outcome_prices p.1 0 : ℤ) : ℚ))).sum

/-- the second moment Σ prob · price² of
calculate_expected_value_with_uncertainty (probability_calc.py lines
185-188). -/
def expected_value_squared (outcome_probabilities : List (String × ℚ))
    (outcome_prices : List (String × ℤ)) : ℚ :=
  (outcome_probabilities.map (fun p => p.2 * ((dictGet outcome_prices p.1 0 : ℤ) : ℚ) ^ 2)).sum

/-- ProbabilityCalculator._calculate_profit_probability
(probability_calc.py lines 212-223): total probability of the outcomes
whose price is strictly greater than the input cost, with missing
prices defaulting to 0. -/
def calculate_profit_probability (outcome_probabilities : List (String × ℚ))
    (outcome_prices : List (String × ℤ)) (input_cost : ℤ) : ℚ :=
  (outcome_probabilities.map (fun p =>
    if input_cost < dictGet outcome_prices p.1 0 then p.2 else 0)).sum

/-- the result dict of calculate_expected_value_with_uncertainty. -/
structure UncertaintyResult where
  expected_value : ℚ
  lower_bound : ℝ
  upper_bound : ℝ
  profit_probability : ℚ
  standard_deviation : ℝ

/-- ProbabilityCalculator.calculate_expected_value_with_uncertainty
(probability_calc.py lines 161-210).  The standard deviation is
math.sqrt of the (possibly negative, then guarded) variance, and the
z-score lookup sends exactly 0.95 to 1.96 and everything else to 2.576. -/
noncomputable def calculate_expected_value_with_uncertainty
    (outcome_probabilities : List (String × ℚ)) (outcome_prices : List (String × ℤ))
    (input_cost : ℤ) (confidence_level : ℚ) : UncertaintyResult :=
  let expected_output := expected_output_value outcome_probabilities outcome_prices
  let expected_profit := expected_output - (input_cost : ℚ)
  let variance := expected_value_squared outcome_probabilities outcome_prices
    - expected_output ^ 2
  let std_dev : ℝ := if 0 < variance then Real.sqrt (variance : ℝ) else 0
  let z_score : ℚ := if confidence_level = 95/100 then 196/100 else 2576/1000
  let margin_of_error : ℝ := (z_score : ℝ) * std_dev
  { expected_value := expected_profit
    lower_bound := (expected_profit : ℝ) - margin_of_error
    upper_bound := (expected_profit : ℝ) + margin_of_error
    profit_probability :=
      calculate_profit_probability outcome_probabilities outcome_prices input_cost
    standard_deviation := std_dev }

/-- the sharpe ratio value of calculate_risk_metrics: either the finite
quotient expected_return / risk, or the float("inf") sentinel. -/
inductive SharpeValue where
  | finite (x : ℝ)
  | posInf

/-- the expected return (expected_output - input_cost) / input_cost of
calculate_risk_metrics (probability_calc.py lines 245-247), 0 when the
input cost is not positive. -/
def risk_expected_return (outcome_probabilities : List (String × ℚ))
    (outcome_prices : List (String × ℤ)) (input_cost : ℤ) : ℚ :=
  let prices := (outcome_probabilities.map (fun p => p.1)).map
    (fun skin => dictGet outcome_prices skin 0)
  let probabilities := outcome_probabilities.map (fun p => p.2)
  let expected_output := ((probabilities.zip prices).map (fun q => q.1 * (q.2 : ℚ))).sum
  if 0 < input_cost then (expected_output - (input_cost : ℚ)) / (input_cost : ℚ) else 0

/-- the variance of per-outcome returns of calculate_risk_metrics
(probability_calc.py lines 249-253), 0 when the input cost is not
positive. -/
def risk_variance (outcome_probabilities : List (String × ℚ))
    (outcome_prices : List (String × ℤ)) (input_cost : ℤ) : ℚ :=
  let prices := (outcome_probabilities.map (fun p => p.1)).map
    (fun skin => dictGet outcome_prices skin 0)
  let probabilities := outcome_probabilities.map (fun p => p.2)
  let expected_return := risk_expected_return outcome_probabilities outcome_prices input_cost
  if 0 < input_cost then
    ((probabilities.zip prices).map (fun q =>
      q.1 * (((q.2 : ℚ) - (input_cost : ℚ)) / (input_cost : ℚ) - expected_return) ^ 2)).sum
  else 0

/-- risk = math.sqrt(variance) of calculate_risk_metrics, line 255. -/
noncomputable def risk_value (outcome_probabilities : List (String × ℚ))
    (outcome_prices : List (String × ℤ)) (input_cost : ℤ) : ℝ :=
  Real.sqrt ((risk_variance outcome_probabilities outcome_prices input_cost : ℚ) : ℝ)

/-- the result dict of calculate_risk_metrics. -/
structure RiskMetrics where
  max_loss : ℤ
  max_gain : ℤ
  expected_return_percent : ℚ
  risk_percent : ℝ
  sharpe_ratio : SharpeValue
  loss_probability : ℚ

/-- ProbabilityCalculator.calculate_risk_metrics (probability_calc.py
lines 225-269): extremes over the looked-up prices of the outcomes
(missing prices default to 0, empty pools default min and max to 0),
expected return and return variance guarded by input_cost > 0, risk as
the square root of the variance, and the sharpe ratio with the
float("inf") sentinel when the risk is not positive. -/
noncomputable def calculate_risk_metrics (outcome_probabilities : List (String × ℚ))
    (outcome_prices : List (String × ℤ)) (input_cost : ℤ) : RiskMetrics :=
  let prices := (outcome_probabilities.map (fun p => p.1)).map
    (fun skin => dictGet outcome_prices skin 0)
  let min_outcome_value := pyMin prices 0
  let max_outcome_value := pyMax prices 0
  let expected_return := risk_expected_return outcome_probabilities outcome_prices input_cost
  let risk := risk_value outcome_probabilities outcome_prices input_cost
  { max_loss := input_cost - min_outcome_value
    max_gain := max_outcome_value - input_cost
    expected_return_percent := expected_return * 100
    risk_percent := risk * 100
    sharpe_ratio := if 0 < risk then .finite ((expected_return : ℝ) / risk) else .posInf
    loss_probability :=
      1 - calculate_profit_probability outcome_probabilities outcome_prices input_cost }

/-- association list of name ↦ probability induced by a list of
TradeupOutcome values: the outcome_probabilities dict a caller passes to
the ProbabilityCalculator methods for those outcomes. -/
def probsOf (outcomes : List TradeupOutcome) : List (String × ℚ) :=
  outcomes.map (fun o => (o.skin_data.market_hash_name, o.probability))

/-- association list of name ↦ price induced by a list of
TradeupOutcome values: the outcome_prices dict a caller passes to the
ProbabilityCalculator methods for those outcomes. -/
def pricesOf (outcomes : List TradeupOutcome) : List (String × ℤ) :=
  outcomes.map (fun o => (o.skin_data.market_hash_name, o.skin_data.price_cents))

/-- helper for building concrete skins in witnesses and counterexamples. -/
def mkSkin (name rarity : String) (fv : ℚ) (price : ℤ) (st sv : Bool) : SkinData :=
  { market_hash_name := name, collection := "Test Collection", rarity := rarity,
    float_value := fv, price_cents := price, wear_name := "Field-Tested",
    is_stattrak := st, is_souvenir := sv }

/-- C3: upgrading a non-top rarity yields the next tier
(upgrade of Classified is Covert), but the two failure kinds are NOT
distinguishable: the ValueError raised for the top tier Covert on line
157 is caught by the except ValueError handler on line 158, so Covert
fails with the very same InvalidRarity-style error as an unknown rarity,
contradicting the claim that the caller can tell CannotUpgrade apart. -/
theorem rarity_upgrade_error_collapse :
    calculate_rarity_upgrade_probability "Classified" = .ok "Covert" ∧
    calculate_rarity_upgrade_probability "Covert" = .error "Unknown rarity: Covert" ∧
    calculate_rarity_upgrade_probability "Unknown" = .error "Unknown rarity: Unknown" :=
  ⟨rfl, rfl, rfl⟩

/-- C9: TradeupInput construction runs the post-init length check:
a list of any length other than 10 is rejected with the ValueError
message, and every successfully constructed value holds exactly the 10
given skins. -/
theorem tradeup_input_requires_ten (input_skins : List SkinData) :
    (∀ t, TradeupInput.make input_skins = .ok t → t.input_skins.length = 10) ∧
    (input_skins.length ≠ 10 →
      TradeupInput.make input_skins = .error "Tradeup contract requires exactly 10 input skins") ∧
    (input_skins.length = 10 → TradeupInput.make input_skins = .ok ⟨input_skins⟩) := by
  by_cases h : input_skins.length = 10
  · refine ⟨?_, fun hn => absurd h hn, fun _ => by simp [TradeupInput.make, h]⟩
    intro t ht
    simp only [TradeupInput.make, h] at ht
    simp only [ne_eq, not_true_eq_false, if_false, ite_false, reduceIte] at ht
    obtain rfl : TradeupInput.mk input_skins = t := by
      simpa using ht
    exact h
  · refine ⟨?_, fun _ => by simp [TradeupInput.make, h], fun h10 => absurd h10 h⟩
    intro t ht
    simp [TradeupInput.make, h] at ht

/-- C9 witness: nine copies of a skin are rejected, ten are accepted. -/
theorem tradeup_input_requires_ten_witness :
    TradeupInput.make (List.replicate 9 (mkSkin "AK" "Restricted" (1/5) 100 false false)) =
      .error "Tradeup contract requires exactly 10 input skins" ∧
    TradeupInput.make (List.replicate 10 (mkSkin "AK" "Restricted" (1/5) 100 false false)) =
      .ok ⟨List.replicate 10 (mkSkin "AK" "Restricted" (1/5) 100 false false)⟩ :=
  ⟨(tradeup_input_requires_ten _).2.1 (by simp),
   (tradeup_input_requires_ten _).2.2 (by simp)⟩

/-- on a nonempty outcome list with at least one outcome priced at or
above the input cost, the break-even probability is the probability
mass of those outcomes. -/
lemma break_even_nonempty_eq (input_cost : ℤ) (outcomes : List TradeupOutcome)
    (hne : outcomes ≠ [])
    (hex : ∃ o ∈ outcomes, input_cost ≤ o.skin_data.price_cents) :
    calculate_break_even_probability input_cost outcomes =
      ((outcomes.filter (fun o => input_cost ≤ o.skin_data.price_cents)).map
        (fun o => o.probability)).sum := by
  have h1 : outcomes.isEmpty = false := by simp [List.isEmpty_iff, hne]
  have h2 : (outcomes.filter (fun o => input_cost ≤ o.skin_data.price_cents)).isEmpty
      = false := by
    obtain ⟨o, ho, hle⟩ := hex
    rcases hfil : outcomes.filter (fun o => input_cost ≤ o.skin_data.price_cents) with _ | ⟨a, l⟩
    · exfalso
      rw [List.filter_eq_nil_iff] at hfil
      exact absurd hle (by simpa using hfil o ho)
    · rw [hfil]; rfl
  simp [calculate_break_even_probability, h1, h2]

/-- C2 (amended): the break-even probability is the probability mass of
the outcomes priced at or above the input cost (non-strict), and 1.0
when the outcome list is nonempty but no outcome reaches the cost; for
an EMPTY outcome list, however, the code returns 0.0, not the 1.0
sentinel the claim states. -/
theorem break_even_probability_spec (input_cost : ℤ) (outcomes : List TradeupOutcome) :
    (outcomes = [] → calculate_break_even_probability input_cost outcomes = 0) ∧
    (outcomes ≠ [] → (∀ o ∈ outcomes, o.skin_data.price_cents < input_cost) →
      calculate_break_even_probability input_cost outcomes = 1) ∧
    (outcomes ≠ [] → (∃ o ∈ outcomes, input_cost ≤ o.skin_data.price_cents) →
      calculate_break_even_probability input_cost outcomes =
        ((outcomes.filter (fun o => input_cost ≤ o.skin_data.price_cents)).map
          (fun o => o.probability)).sum) := by
  refine ⟨fun h => by subst h; rfl, fun hne hall => ?_,
    fun hne hex => break_even_nonempty_eq input_cost outcomes hne hex⟩
  have h1 : outcomes.isEmpty = false := by simp [List.isEmpty_iff, hne]
  have h2 : outcomes.filter (fun o => input_cost ≤ o.skin_data.price_cents) = [] := by
    rw [List.filter_eq_nil_iff]
    intro a ha
    simpa using not_le.mpr (hall a ha)
  simp [calculate_break_even_probability, h1, h2]

/-- C2 witness: exercising all three branches of the amended claim on
concrete outcome lists. -/
theorem break_even_probability_spec_witness :
    calculate_break_even_probability 100 [] = 0 ∧
    calculate_break_even_probability 1000
      [⟨mkSkin "A" "Covert" (1/5) 50 false false, 1/2, (1/10, 3/10)⟩,
       ⟨mkSkin "B" "Covert" (1/5) 300 false false, 1/2, (1/10, 3/10)⟩] = 1 ∧
    calculate_break_even_probability 100
      [⟨mkSkin "A" "Covert" (1/5) 50 false false, 1/2, (1/10, 3/10)⟩,
       ⟨mkSkin "B" "Covert" (1/5) 300 false false, 1/2, (1/10, 3/10)⟩] = 1/2 := by
  refine ⟨(break_even_probability_spec 100 []).1 rfl,
    (break_even_probability_spec 1000 _).2.1 (by simp) (by decide), ?_⟩
  rw [(break_even_probability_spec 100 _).2.2 (by simp)
    ⟨⟨mkSkin "B" "Covert" (1/5) 300 false false, 1/2, (1/10, 3/10)⟩, by simp, by decide⟩]
  norm_num [mkSkin]

/-- C2 counterexample: on the empty outcome list the code returns 0.0,
not the claimed sentinel 1.0. -/
theorem break_even_probability_empty_counterexample :
    calculate_break_even_probability 100 [] = 0 ∧
    calculate_break_even_probability 100 [] ≠ 1 :=
  ⟨rfl, by decide⟩

/-- membership in a conditional singleton list. -/
lemma mem_ite_singleton {α : Type} (a b : α) (c : Prop) [Decidable c] :
    (a ∈ if c then [b] else ([] : List α)) ↔ c ∧ a = b := by
  split <;> rename_i h <;> simp [h]

/-- C4 (amended): when the item count differs from 10, validation
short-circuits and reports ONLY the count violation (tradeup_engine.py
line 189); when the count is exactly 10, the four remaining structural
rules are checked independently and every violated rule contributes its
violation to the returned list.  The validator never throws. -/
theorem validate_tradeup_inputs_spec (input_skins : List SkinData) :
    (input_skins.length ≠ 10 →
      validate_tradeup_inputs input_skins = [.count input_skins.length]) ∧
    (input_skins.length = 10 →
      ((∃ rs, Violation.mixedRarities rs ∈ validate_tradeup_inputs input_skins) ↔
        1 < (pyDedup (input_skins.map (fun s => s.rarity))).length) ∧
      (Violation.inconsistentStattrak ∈ validate_tradeup_inputs input_skins ↔
        (0 < (input_skins.filter (fun s => s.is_stattrak)).length ∧
         (input_skins.filter (fun s => s.is_stattrak)).length ≠ 10)) ∧
      (Violation.inconsistentSouvenir ∈ validate_tradeup_inputs input_skins ↔
        (0 < (input_skins.filter (fun s => s.is_souvenir)).length ∧
         (input_skins.filter (fun s => s.is_souvenir)).length ≠ 10)) ∧
      (Violation.mixedStattrakSouvenir ∈ validate_tradeup_inputs input_skins ↔
        (0 < (input_skins.filter (fun s => s.is_stattrak)).length ∧
         0 < (input_skins.filter (fun s => s.is_souvenir)).length))) := by
  constructor
  · intro h
    simp [validate_tradeup_inputs, h]
  · intro h
    simp only [validate_tradeup_inputs, h, ne_eq, not_true_eq_false, if_false, ite_false,
      reduceIte, List.mem_append, mem_ite_singleton]
    refine ⟨?_, ?_, ?_, ?_⟩ <;> simp

/-- C4 counterexample: nine skins spanning two distinct rarities produce
only the count violation, although the single-rarity rule is violated as
well — the claim that all applicable violations are reported at once
fails when the count rule is among them. -/
theorem validate_count_shortcircuit_counterexample :
    validate_tradeup_inputs
        (List.replicate 5 (mkSkin "A" "Restricted" (1/5) 100 false false) ++
         List.replicate 4 (mkSkin "B" "Classified" (1/5) 100 false false)) =
      [.count 9] ∧
    1 < (pyDedup ((List.replicate 5 (mkSkin "A" "Restricted" (1/5) 100 false false) ++
         List.replicate 4 (mkSkin "B" "Classified" (1/5) 100 false false)).map
          (fun s => s.rarity))).length := by
  constructor
  · simp [validate_tradeup_inputs]
  · decide

/-- C4 witness: ten same-rarity skins of which exactly three are
stattrak trigger the inconsistent-stattrak violation but not the
stattrak-souvenir mixing violation. -/
theorem validate_tradeup_inputs_spec_witness :
    Violation.inconsistentStattrak ∈ validate_tradeup_inputs
      (List.replicate 3 (mkSkin "A" "Restricted" (1/5) 100 true false) ++
       List.replicate 7 (mkSkin "A" "Restricted" (1/5) 100 false false)) ∧
    ¬ (Violation.mixedStattrakSouvenir ∈ validate_tradeup_inputs
      (List.replicate 3 (mkSkin "A" "Restricted" (1/5) 100 true false) ++
       List.replicate 7 (mkSkin "A" "Restricted" (1/5) 100 false false))) := by
  refine ⟨((validate_tradeup_inputs_spec _).2 (by simp)).2.1.mpr (by decide),
    fun hmem => ?_⟩
  have := ((validate_tradeup_inputs_spec _).2 (by simp)).2.2.2.mp hmem
  revert this
  decide

/-- every float value in [0,1) lies in the half-open interval of the
tier from_float selects. -/
lemma from_float_mem (x : ℚ) (h0 : 0 ≤ x) (h1 : x < 1) :
    (WearTier.from_float x).min_float ≤ x ∧ x < (WearTier.from_float x).max_float := by
  unfold WearTier.from_float
  split_ifs with hc1 hc2 hc3 hc4 hc5 <;>
    simp only [WearTier.min_float, WearTier.max_float, Rat.cast_id] at *
  · exact hc1
  · exact hc2
  · exact hc3
  · exact hc4
  · exact hc5
  · exfalso
    push_neg at hc1 hc2 hc3 hc4 hc5
    have a1 : (7:ℚ)/100 ≤ x := hc1 h0
    have a2 : (15:ℚ)/100 ≤ x := hc2 (by linarith)
    have a3 : (38:ℚ)/100 ≤ x := hc3 (by linarith)
    have a4 : (45:ℚ)/100 ≤ x := hc4 (by linarith)
    have a5 : (1:ℚ) ≤ x := hc5 (by linarith)
    linarith

/-- the five wear-tier intervals are pairwise disjoint: a float value
in two of them forces the tiers to be equal. -/
lemma tier_interval_unique (x : ℚ) (t t' : WearTier)
    (ht : t.min_float ≤ x ∧ x < t.max_float)
    (ht' : t'.min_float ≤ x ∧ x < t'.max_float) : t = t' := by
  obtain ⟨ht1, ht2⟩ := ht
  obtain ⟨ht3, ht4⟩ := ht'
  cases t <;> cases t' <;> first
    | rfl
    | (exfalso
       simp only [WearTier.min_float, WearTier.max_float] at ht1 ht2 ht3 ht4
       linarith)

/-- C8: the five wear-tier intervals are contiguous in the order
Factory New, Minimal Wear, Field-Tested, Well-Worn, Battle-Scarred,
starting at 0 and ending at 1; every float value in [0,1) lies in
exactly one tier interval, from_float returns that tier, and the
fallback maps the inclusive endpoint 1.0 to Battle-Scarred. -/
theorem wear_tier_partition :
    (WearTier.FACTORY_NEW.min_float = 0 ∧
     WearTier.FACTORY_NEW.max_float = WearTier.MINIMAL_WEAR.min_float ∧
     WearTier.MINIMAL_WEAR.max_float = WearTier.FIELD_TESTED.min_float ∧
     WearTier.FIELD_TESTED.max_float = WearTier.WELL_WORN.min_float ∧
     WearTier.WELL_WORN.max_float = WearTier.BATTLE_SCARRED.min_float ∧
     WearTier.BATTLE_SCARRED.max_float = 1) ∧
    (∀ x : ℚ, 0 ≤ x → x < 1 →
      ∃! t : WearTier, t.min_float ≤ x ∧ x < t.max_float) ∧
    (∀ x : ℚ, 0 ≤ x → x < 1 →
      (WearTier.from_float x).min_float ≤ x ∧ x < (WearTier.from_float x).max_float) ∧
    WearTier.from_float (1 : ℚ) = .BATTLE_SCARRED := by
  refine ⟨by norm_num [WearTier.min_float, WearTier.max_float], ?_, from_float_mem, ?_⟩
  · intro x h0 h1
    exact ⟨WearTier.from_float x, from_float_mem x h0 h1,
      fun t' ht' => tier_interval_unique x t' (WearTier.from_float x) ht'
        (from_float_mem x h0 h1)⟩
  · norm_num [WearTier.from_float, WearTier.min_float, WearTier.max_float]

/-- C8 witness: the partition and lookup facts at the concrete float
value 1/2, which lies in the Battle-Scarred interval. -/
theorem wear_tier_partition_witness :
    (∃! t : WearTier, t.min_float ≤ (1/2 : ℚ) ∧ (1/2 : ℚ) < t.max_float) ∧
    ((WearTier.from_float ((1:ℚ)/2)).min_float ≤ (1/2 : ℚ) ∧
      (1/2 : ℚ) < (WearTier.from_float ((1:ℚ)/2)).max_float) :=
  ⟨wear_tier_partition.2.1 (1/2) (by norm_num) (by norm_num),
   wear_tier_partition.2.2.1 (1/2) (by norm_num) (by norm_num)⟩

/-- C5: at the failing input — ten identical skins with float value
0.2, whose statistical range degenerates to the point [0.2, 0.2] — the
wear-tier distribution is all zeros.  The fallback on line 109 of
probability_calc.py that was meant to give weight 1 to the tier
containing the point (Field-Tested here) is unreachable: when
hi == lo every tier overlap satisfies overlap_max ≤ hi = lo ≤
overlap_min, so the strict test overlap_max > overlap_min on line 100
never fires, every raw weight is 0, and the zero-total guard on line
117 skips normalization, contradicting the claim that the containing
tier receives probability 1. -/
theorem float_distribution_degenerate_all_zero :
    calculate_float_statistics
        (List.replicate 10 (mkSkin "A" "Restricted" (1/5) 100 false false)) = (1/5, 0) ∧
    float_stdev ((List.replicate 10 (mkSkin "A" "Restricted" (1/5) 100 false false)).map
        (fun s => s.float_value)) = 0 ∧
    WearTier.from_float ((1:ℚ)/5) = .FIELD_TESTED ∧
    floatDistFrom ((1:ℚ)/5) 0 =
      [(.FACTORY_NEW, 0), (.MINIMAL_WEAR, 0), (.FIELD_TESTED, 0),
       (.WELL_WORN, 0), (.BATTLE_SCARRED, 0)] ∧
    calculate_float_distribution
        (List.replicate 10 (mkSkin "A" "Restricted" (1/5) 100 false false)) =
      [(.FACTORY_NEW, 0), (.MINIMAL_WEAR, 0), (.FIELD_TESTED, 0),
       (.WELL_WORN, 0), (.BATTLE_SCARRED, 0)] := by
  have hvar : statVariance ((List.replicate 10 (mkSkin "A" "Restricted" (1/5) 100 false
      false)).map (fun s => s.float_value)) = 0 := by
    norm_num [statVariance, statMean, mkSkin, List.replicate]
  have hstd : float_stdev ((List.replicate 10 (mkSkin "A" "Restricted" (1/5) 100 false
      false)).map (fun s => s.float_value)) = 0 := by
    rw [float_stdev, hvar]
    simp [Real.sqrt_zero]
  refine ⟨?_, hstd, ?_, ?_, ?_⟩
  · norm_num [calculate_float_statistics, statMean, statVariance, mkSkin, List.replicate]
  · norm_num [WearTier.from_float, WearTier.min_float, WearTier.max_float]
  · norm_num [floatDistFrom, WearTier.all, WearTier.min_float, WearTier.max_float]
  · rw [calculate_float_distribution]
    simp only [List.length_map, List.length_replicate, hstd]
    norm_num [floatDistFrom, WearTier.all, WearTier.min_float, WearTier.max_float,
      statMean, mkSkin, List.replicate]

/-- foldl step of pyDedup over a list of pairwise-distinct keys none of
which is already accumulated appends the list unchanged. -/
lemma pyDedup_foldl_of_nodup {α : Type} [DecidableEq α] (l : List α) :
    ∀ acc : List α, (∀ k ∈ l, k ∉ acc) → l.Nodup →
      l.foldl (fun acc k => if k ∈ acc then acc else acc ++ [k]) acc = acc ++ l := by
  induction l with
  | nil => intro acc _ _; simp
  | cons k ks ih =>
      intro acc hacc hnd
      have hk : k ∉ acc := hacc k (by simp)
      rw [List.foldl_cons, if_neg hk, ih (acc ++ [k]) ?_ (List.Nodup.of_cons hnd)]
      · simp
      · intro a ha
        simp only [List.mem_append, List.mem_singleton]
        rintro (h | rfl)
        · exact hacc a (by simp [ha]) h
        · exact (List.nodup_cons.mp hnd).1 ha

/-- a python dict comprehension over pairwise-distinct keys keeps them
all, in order. -/
lemma pyDedup_eq_self {α : Type} [DecidableEq α] (l : List α) (h : l.Nodup) :
    pyDedup l = l := by
  rw [pyDedup, pyDedup_foldl_of_nodup l [] (by simp) h]
  simp

/-- C1 (amended): for a nonempty outcome pool whose candidate names are
pairwise distinct, and nonempty input skins (with empty input skins the
call raises in statistics.mean instead of returning), every candidate is
assigned the uniform probability 1/N and the outcome probabilities sum
to exactly 1.  With duplicated candidate names the dict comprehension
collapses entries and the sum falls short of 1 (see the
counterexample). -/
theorem outcome_probabilities_uniform (input_skins outcome_collection : List SkinData)
    (hin : input_skins ≠ []) (hout : outcome_collection ≠ [])
    (hnd : (outcome_collection.map (fun s => s.market_hash_name)).Nodup) :
    calculate_outcome_probabilities input_skins outcome_collection =
      .ok ⟨outcome_collection.map
            (fun s => (s.market_hash_name, 1 / (outcome_collection.length : ℚ))),
          calculate_float_distribution input_skins,
          (calculate_float_statistics input_skins).1,
          (calculate_float_statistics input_skins).2⟩ ∧
    ((outcome_collection.map
        (fun s => (s.market_hash_name, 1 / (outcome_collection.length : ℚ)))).map
      (fun p => p.2)).sum = 1 := by
  have hlen : outcome_collection.length ≠ 0 := by
    simpa [List.length_eq_zero] using hout
  have hlenQ : (outcome_collection.length : ℚ) ≠ 0 := Nat.cast_ne_zero.mpr hlen
  constructor
  · rw [calculate_outcome_probabilities]
    rw [if_neg hlen, if_neg (by simp [List.isEmpty_iff, hin])]
    rw [pyDedup_eq_self _ hnd]
    simp only [List.map_map]
    rfl
  · rw [List.map_map]
    have : ((fun p : String × ℚ => p.2) ∘
        fun s : SkinData => (s.market_hash_name, 1 / (outcome_collection.length : ℚ))) =
        fun _ => 1 / (outcome_collection.length : ℚ) := rfl
    rw [this, List.map_const', List.sum_replicate, nsmul_eq_mul]
    field_simp

/-- C1 witness: a two-candidate pool with distinct names where each
candidate receives probability 1/2 and the probabilities sum to 1. -/
theorem outcome_probabilities_uniform_witness :
    calculate_outcome_probabilities [mkSkin "In" "Classified" (1/5) 50 false false]
        [mkSkin "A" "Covert" (1/10) 100 false false,
         mkSkin "B" "Covert" (3/10) 200 false false] =
      .ok ⟨[mkSkin "A" "Covert" (1/10) 100 false false,
            mkSkin "B" "Covert" (3/10) 200 false false].map
            (fun s => (s.market_hash_name,
              1 / (([mkSkin "A" "Covert" (1/10) 100 false false,
                     mkSkin "B" "Covert" (3/10) 200 false false] : List SkinData).length : ℚ))),
          calculate_float_distribution [mkSkin "In" "Classified" (1/5) 50 false false],
          (calculate_float_statistics [mkSkin "In" "Classified" (1/5) 50 false false]).1,
          (calculate_float_statistics [mkSkin "In" "Classified" (1/5) 50 false false]).2⟩ ∧
    (([mkSkin "A" "Covert" (1/10) 100 false false,
       mkSkin "B" "Covert" (3/10) 200 false false].map
        (fun s => (s.market_hash_name,
          1 / (([mkSkin "A" "Covert" (1/10) 100 false false,
                 mkSkin "B" "Covert" (3/10) 200 false false] : List SkinData).length : ℚ)))).map
      (fun p => p.2)).sum = 1 :=
  outcome_probabilities_uniform
    [mkSkin "In" "Classified" (1/5) 50 false false]
    [mkSkin "A" "Covert" (1/10) 100 false false,
     mkSkin "B" "Covert" (3/10) 200 false false]
    (by simp) (by simp) (by simp [mkSkin])

/-- C1 counterexample: a pool of two candidates sharing the name "A"
collapses to a single dict entry of probability 1/2, so the outcome
probabilities sum to 1/2, not 1, refuting the claim for pools with
repeated market_hash_name values. -/
theorem outcome_probabilities_duplicate_counterexample :
    calculate_outcome_probabilities [mkSkin "In" "Classified" (1/5) 50 false false]
        [mkSkin "A" "Covert" (1/10) 100 false false,
         mkSkin "A" "Covert" (3/10) 200 false false] =
      .ok ⟨[("A", 1/2)],
          calculate_float_distribution [mkSkin "In" "Classified" (1/5) 50 false false],
          1/5, 0⟩ ∧
    (([(("A" : String), (1/2 : ℚ))].map (fun p => p.2)).sum ≠ 1) := by
  constructor
  · rw [calculate_outcome_probabilities]
    norm_num [pyDedup, mkSkin, calculate_float_statistics, statMean,
      ProbabilityDistribution.mk.injEq]
  · norm_num

/-- C7: the sharpe ratio is the expected return divided by the risk
whenever the risk is positive, and the positive-infinity sentinel value
(a first-class constructor, not an error) whenever the risk is zero; a
single-entry outcome pool with probability 1 has zero return variance,
hence zero risk and the infinite sharpe ratio. -/
theorem sharpe_ratio_spec (outcome_probabilities : List (String × ℚ))
    (outcome_prices : List (String × ℤ)) (input_cost : ℤ) :
    (0 < risk_value outcome_probabilities outcome_prices input_cost →
      (calculate_risk_metrics outcome_probabilities outcome_prices input_cost).sharpe_ratio =
        .finite ((risk_expected_return outcome_probabilities outcome_prices input_cost : ℝ) /
          risk_value outcome_probabilities outcome_prices input_cost)) ∧
    (risk_value outcome_probabilities outcome_prices input_cost = 0 →
      (calculate_risk_metrics outcome_probabilities outcome_prices input_cost).sharpe_ratio =
        .posInf) ∧
    (∀ n : String, outcome_probabilities = [(n, 1)] →
      risk_value outcome_probabilities outcome_prices input_cost = 0 ∧
      (calculate_risk_metrics outcome_probabilities outcome_prices input_cost).sharpe_ratio =
        .posInf) := by
  refine ⟨?_, ?_, ?_⟩
  · intro h
    simp only [calculate_risk_metrics]
    rw [if_pos h]
  · intro h
    simp only [calculate_risk_metrics]
    rw [h, if_neg (lt_irrefl (0:ℝ))]
  · intro n hp
    have hv : risk_variance outcome_probabilities outcome_prices input_cost = 0 := by
      subst hp
      simp only [risk_variance, risk_expected_return, List.map_cons, List.map_nil,
        List.zip_cons_cons, List.zip_nil_right, List.sum_cons, List.sum_nil]
      by_cases hc : 0 < input_cost
      · rw [if_pos hc]
        simp only [if_pos hc]
        ring_nf
      · rw [if_neg hc]
    have hr : risk_value outcome_probabilities outcome_prices input_cost = 0 := by
      rw [risk_value, hv]
      simp
    refine ⟨hr, ?_⟩
    simp only [calculate_risk_metrics]
    rw [hr, if_neg (lt_irrefl (0:ℝ))]

/-- C7 witness: a one-item pool priced 500 against input cost 300 has
zero risk and the positive-infinity sharpe ratio sentinel. -/
theorem sharpe_ratio_spec_witness :
    risk_value [("A", 1)] [("A", 500)] 300 = 0 ∧
    (calculate_risk_metrics [("A", 1)] [("A", 500)] 300).sharpe_ratio = .posInf :=
  (sharpe_ratio_spec [("A", 1)] [("A", 500)] 300).2.2 "A" rfl

/-- looking up a key absent from a python dict yields the supplied
default. -/
lemma dictGet_not_mem {α : Type} (d : List (String × α)) (n : String) (default : α)
    (h : n ∉ dictKeys d) : dictGet d n default = default := by
  rw [dictGet]
  have hnone : d.find? (fun p => p.1 == n) = none := by
    rw [List.find?_eq_none]
    intro p hp
    simp only [beq_iff_eq]
    intro hpn
    exact h (List.mem_map.mpr ⟨p, hp, hpn⟩)
  rw [hnone]

/-- inserting an absent key with the default value 0 does not change any
lookup with default 0. -/
lemma dictGet_cons_zero (n : String) (d : List (String × ℤ)) (h : n ∉ dictKeys d) :
    ∀ m, dictGet ((n, (0:ℤ)) :: d) m 0 = dictGet d m 0 := by
  intro m
  by_cases hm : m = n
  · subst hm
    rw [dictGet_not_mem d m 0 h]
    rw [dictGet, List.find?_cons_of_pos _ (by simp)]
  · rw [dictGet, dictGet, List.find?_cons_of_neg _ (by simp [Ne.symm hm])]

/-- C10: an outcome name present in the probability mapping but absent
from the price mapping is silently priced 0: its lookup yields the
default 0, extending the price dict with an explicit 0 entry for it
changes neither the uncertainty computation nor the risk metrics, and
its contribution to the expected output value and second moment is 0. -/
theorem missing_price_defaults_to_zero (outcome_probabilities : List (String × ℚ))
    (outcome_prices : List (String × ℤ)) (input_cost : ℤ) (confidence_level : ℚ)
    (n : String) (h : n ∉ dictKeys outcome_prices) :
    dictGet outcome_prices n (0:ℤ) = 0 ∧
    calculate_expected_value_with_uncertainty outcome_probabilities ((n, 0) :: outcome_prices)
        input_cost confidence_level =
      calculate_expected_value_with_uncertainty outcome_probabilities outcome_prices
        input_cost confidence_level ∧
    calculate_risk_metrics outcome_probabilities ((n, 0) :: outcome_prices) input_cost =
      calculate_risk_metrics outcome_probabilities outcome_prices input_cost ∧
    (∀ q rest, outcome_probabilities = (n, q) :: rest →
      expected_output_value outcome_probabilities outcome_prices =
        expected_output_value rest outcome_prices ∧
      expected_value_squared outcome_probabilities outcome_prices =
        expected_value_squared rest outcome_prices) := by
  refine ⟨dictGet_not_mem _ _ _ h, ?_, ?_, ?_⟩
  · simp only [calculate_expected_value_with_uncertainty, expected_output_value,
      expected_value_squared, calculate_profit_probability, dictGet_cons_zero n outcome_prices h]
  · simp only [calculate_risk_metrics, risk_value, risk_variance, risk_expected_return,
      calculate_profit_probability, dictGet_cons_zero n outcome_prices h]
  · intro q rest hp
    subst hp
    constructor
    · rw [expected_output_value, List.map_cons, List.sum_cons,
        dictGet_not_mem _ _ _ h]
      simp [expected_output_value]
    · rw [expected_value_squared, List.map_cons, List.sum_cons,
        dictGet_not_mem _ _ _ h]
      simp [expected_value_squared]

/-- C10 witness: with the price of "B" missing from the price dict, the
lookup defaults to 0, inserting an explicit ("B", 0) entry changes
nothing, and the "B" term contributes 0 to the expected output value. -/
theorem missing_price_defaults_to_zero_witness :
    dictGet [(("A" : String), (500:ℤ))] "B" 0 = 0 ∧
    calculate_risk_metrics [("B", 1/2), ("A", 1/2)] [("B", 0), ("A", 500)] 300 =
      calculate_risk_metrics [("B", 1/2), ("A", 1/2)] [("A", 500)] 300 ∧
    expected_output_value [("B", 1/2), ("A", 1/2)] [("A", 500)] =
      expected_output_value [("A", 1/2)] [("A", 500)] :=
  ⟨(missing_price_defaults_to_zero [("B", 1/2), ("A", 1/2)] [("A", 500)] 300 (95/100) "B"
      (by simp [dictKeys])).1,
   (missing_price_defaults_to_zero [("B", 1/2), ("A", 1/2)] [("A", 500)] 300 (95/100) "B"
      (by simp [dictKeys])).2.2.1,
   ((missing_price_defaults_to_zero [("B", 1/2), ("A", 1/2)] [("A", 500)] 300 (95/100) "B"
      (by simp [dictKeys])).2.2.2 (1/2) [("A", 1/2)] rfl).1⟩

/-- probsOf distributes over cons. -/
lemma probsOf_cons (o : TradeupOutcome) (l : List TradeupOutcome) :
    probsOf (o :: l) = (o.skin_data.market_hash_name, o.probability) :: probsOf l := rfl

/-- head lookup in the price dict induced by an outcome list. -/
lemma dictGet_pricesOf_head (o : TradeupOutcome) (l : List TradeupOutcome) :
    dictGet (pricesOf (o :: l)) o.skin_data.market_hash_name 0 =
      o.skin_data.price_cents := by
  rw [pricesOf, List.map_cons, dictGet, List.find?_cons_of_pos _ (by simp)]

/-- lookups of other names skip the head entry of the induced price
dict. -/
lemma dictGet_pricesOf_ne (o : TradeupOutcome) (l : List TradeupOutcome) (key : String)
    (hne : key ≠ o.skin_data.market_hash_name) :
    dictGet (pricesOf (o :: l)) key 0 = dictGet (pricesOf l) key 0 := by
  rw [pricesOf, List.map_cons, dictGet, dictGet,
    List.find?_cons_of_neg _ (by simp [Ne.symm hne])]
  rw [pricesOf]

/-- unfolding of the profit-probability accumulation over the first
dict entry. -/
lemma profit_prob_cons (a : String × ℚ) (ps : List (String × ℚ))
    (outcome_prices : List (String × ℤ)) (input_cost : ℤ) :
    calculate_profit_probability (a :: ps) outcome_prices input_cost =
      (if input_cost < dictGet outcome_prices a.1 0 then a.2 else 0) +
        calculate_profit_probability ps outcome_prices input_cost := by
  rw [calculate_profit_probability, calculate_profit_probability, List.map_cons,
    List.sum_cons]

/-- on the dicts induced by an outcome list with pairwise-distinct
names, the profit probability is the probability mass of the outcomes
priced strictly above the input cost. -/
lemma profit_prob_outcomes (input_cost : ℤ) (outcomes : List TradeupOutcome)
    (hnd : (outcomes.map (fun x => x.skin_data.market_hash_name)).Nodup) :
    calculate_profit_probability (probsOf outcomes) (pricesOf outcomes) input_cost =
      ((outcomes.filter (fun x => input_cost < x.skin_data.price_cents)).map
        (fun x => x.probability)).sum := by
  induction outcomes with
  | nil => rfl
  | cons o l ih =>
      simp only [List.map_cons, List.nodup_cons] at hnd
      obtain ⟨hno, hndl⟩ := hnd
      rw [probsOf_cons, profit_prob_cons, dictGet_pricesOf_head]
      have htail : calculate_profit_probability (probsOf l) (pricesOf (o :: l)) input_cost
          = calculate_profit_probability (probsOf l) (pricesOf l) input_cost := by
        rw [calculate_profit_probability, calculate_profit_probability]
        refine congrArg List.sum (List.map_congr_left ?_)
        intro p hp
        have hp1 : p.1 ≠ o.skin_data.market_hash_name := by
          obtain ⟨x, hx, rfl⟩ := List.mem_map.mp
            (show p ∈ List.map (fun x => (x.skin_data.market_hash_name, x.probability)) l
              from hp)
          intro hc
          exact hno (List.mem_map.mpr ⟨x, hx, hc⟩)
        rw [dictGet_pricesOf_ne o l p.1 hp1]
      rw [htail, ih hndl, List.filter_cons]
      by_cases hc : input_cost < o.skin_data.price_cents
      · simp [hc]
      · simp [hc]

/-- the non-strict probability mass splits into the strict mass and the
mass at exactly the input cost. -/
lemma sum_filter_ge_split (input_cost : ℤ) (l : List TradeupOutcome) :
    ((l.filter (fun o => input_cost ≤ o.skin_data.price_cents)).map
      (fun o => o.probability)).sum =
    ((l.filter (fun o => input_cost < o.skin_data.price_cents)).map
      (fun o => o.probability)).sum +
    ((l.filter (fun o => o.skin_data.price_cents = input_cost)).map
      (fun o => o.probability)).sum := by
  induction l with
  | nil => simp
  | cons o l ih =>
      rw [List.filter_cons, List.filter_cons, List.filter_cons]
      rcases lt_trichotomy o.skin_data.price_cents input_cost with h | h | h
      · have c1 : ¬ input_cost ≤ o.skin_data.price_cents := not_le.mpr h
        have c2 : ¬ input_cost < o.skin_data.price_cents := not_lt.mpr (le_of_lt h)
        have c3 : ¬ o.skin_data.price_cents = input_cost := ne_of_lt h
        simp [c1, c2, c3, ih]
      · have c1 : input_cost ≤ o.skin_data.price_cents := le_of_eq h.symm
        have c2 : ¬ input_cost < o.skin_data.price_cents := not_lt.mpr (le_of_eq h)
        simp [c1, c2, h, ih]
        ring
      · have c1 : input_cost ≤ o.skin_data.price_cents := le_of_lt h
        have c3 : ¬ o.skin_data.price_cents = input_cost := ne_of_gt h
        simp [c1, h, c3, ih]
        ring

/-- C6: the profit probability sums the outcomes priced strictly above
the input cost — a strictly different comparison from the non-strict
break-even computation — so when exactly one outcome is priced exactly
at the input cost with positive probability, the break-even probability
exceeds the profit probability by precisely that outcome's probability. -/
theorem profit_vs_break_even (input_cost : ℤ) (outcomes : List TradeupOutcome)
    (o : TradeupOutcome)
    (hnd : (outcomes.map (fun x => x.skin_data.market_hash_name)).Nodup)
    (hfil : outcomes.filter (fun x => x.skin_data.price_cents = input_cost) = [o])
    (hq : 0 < o.probability) :
    calculate_profit_probability (probsOf outcomes) (pricesOf outcomes) input_cost =
      ((outcomes.filter (fun x => input_cost < x.skin_data.price_cents)).map
        (fun x => x.probability)).sum ∧
    calculate_break_even_probability input_cost outcomes =
      calculate_profit_probability (probsOf outcomes) (pricesOf outcomes) input_cost +
        o.probability ∧
    calculate_profit_probability (probsOf outcomes) (pricesOf outcomes) input_cost <
      calculate_break_even_probability input_cost outcomes := by
  have hmemfil : o ∈ outcomes.filter (fun x => x.skin_data.price_cents = input_cost) := by
    rw [hfil]
    simp
  have hmem : o ∈ outcomes := (List.mem_filter.mp hmemfil).1
  have hole : input_cost ≤ o.skin_data.price_cents := by
    have h2 := (List.mem_filter.mp hmemfil).2
    simp only [decide_eq_true_eq] at h2
    exact le_of_eq h2.symm
  have hne : outcomes ≠ [] := by
    intro hnil
    rw [hnil] at hmem
    simp at hmem
  have hprofit := profit_prob_outcomes input_cost outcomes hnd
  have hbe : calculate_break_even_probability input_cost outcomes =
      calculate_profit_probability (probsOf outcomes) (pricesOf outcomes) input_cost +
        o.probability := by
    rw [break_even_nonempty_eq input_cost outcomes hne ⟨o, hmem, hole⟩,
      sum_filter_ge_split, hfil, ← hprofit]
    simp
  exact ⟨hprofit, hbe, by rw [hbe]; exact lt_add_of_pos_right _ hq⟩

/-- C6 witness: two outcomes priced 50 and 300 with probability 1/2
each, against input cost 300: the profit probability is 0, the
break-even probability is 1/2, and they differ by the probability of
the outcome priced exactly at cost. -/
theorem profit_vs_break_even_witness :
    calculate_break_even_probability 300
      [⟨mkSkin "A" "Covert" (1/10) 50 false false, 1/2, (1/10, 3/10)⟩,
       ⟨mkSkin "B" "Covert" (3/10) 300 false false, 1/2, (1/10, 3/10)⟩] =
      calculate_profit_probability
        (probsOf [⟨mkSkin "A" "Covert" (1/10) 50 false false, 1/2, (1/10, 3/10)⟩,
                  ⟨mkSkin "B" "Covert" (3/10) 300 false false, 1/2, (1/10, 3/10)⟩])
        (pricesOf [⟨mkSkin "A" "Covert" (1/10) 50 false false, 1/2, (1/10, 3/10)⟩,
                   ⟨mkSkin "B" "Covert" (3/10) 300 false false, 1/2, (1/10, 3/10)⟩]) 300 +
        (⟨mkSkin "B" "Covert" (3/10) 300 false false, 1/2,
          ((1:ℚ)/10, (3:ℚ)/10)⟩ : TradeupOutcome).probability ∧
    calculate_profit_probability
        (probsOf [⟨mkSkin "A" "Covert" (1/10) 50 false false, 1/2, (1/10, 3/10)⟩,
                  ⟨mkSkin "B" "Covert" (3/10) 300 false false, 1/2, (1/10, 3/10)⟩])
        (pricesOf [⟨mkSkin "A" "Covert" (1/10) 50 false false, 1/2, (1/10, 3/10)⟩,
                   ⟨mkSkin "B" "Covert" (3/10) 300 false false, 1/2, (1/10, 3/10)⟩]) 300 <
      calculate_break_even_probability 300
        [⟨mkSkin "A" "Covert" (1/10) 50 false false, 1/2, (1/10, 3/10)⟩,
         ⟨mkSkin "B" "Covert" (3/10) 300 false false, 1/2, (1/10, 3/10)⟩] := by
  have h := profit_vs_break_even 300
    [⟨mkSkin "A" "Covert" (1/10) 50 false false, 1/2, (1/10, 3/10)⟩,
     ⟨mkSkin "B" "Covert" (3/10) 300 false false, 1/2, (1/10, 3/10)⟩]
    ⟨mkSkin "B" "Covert" (3/10) 300 false false, 1/2, (1/10, 3/10)⟩
    (by simp [mkSkin]) (by simp [mkSkin]) (by norm_num)
  exact ⟨h.2.1, h.2.2⟩

end CS2
